import Mathlib

/-!
Verification development for the sticky-note simulator
(`src/components/StickyNote.tsx`, second component version, and
`src/components/Scene.tsx`).

Conventions of the shallow embedding:
* JavaScript numbers are modelled as rationals (`ℚ`); a possibly
  non-finite solver sample is modelled as `Option ℚ`, with `none`
  standing for `NaN` / `±Infinity` (any non-finite value).
* `Math.PI / 2` is an irrational constant only ever written verbatim by
  the code, never computed with; it is threaded through the definitions
  as an explicit parameter `hp : ℚ`.
* React `useState` setters are asynchronous: inside one event handler or
  callback every read of a state variable sees the value captured by the
  closure at render time.  The definitions below therefore read the
  pre-call value of such flags (notably `hasSettled` in the floor-check
  interval callback) exactly where the source closure does.
* The solver body's live state (position, velocity, angular velocity,
  rotation, mass) is carried in `NoteState`; an `api.xxx.set` call is an
  update of the corresponding field.  `api.applyImpulse` calls are
  returned as an explicit list of (impulse, point) pairs since they are
  requests to the external solver, not direct state writes.
* `api.wakeUp`, cursor-style changes, `console.warn` and visual material
  updates have no effect on the modelled state and are omitted.
-/

namespace StickySim

/-- Three rational components, modelling `THREE.Vector3`. -/
structure Vec3 where
  x : ℚ
  y : ℚ
  z : ℚ
deriving DecidableEq, Repr

/-- Componentwise addition of vectors (`THREE.Vector3.add`). -/
def Vec3.add (a b : Vec3) : Vec3 := ⟨a.x + b.x, a.y + b.y, a.z + b.z⟩

/-- Componentwise subtraction of vectors (`THREE.Vector3.sub`). -/
def Vec3.sub (a b : Vec3) : Vec3 := ⟨a.x - b.x, a.y - b.y, a.z - b.z⟩

/-- Scalar multiplication of a vector (`THREE.Vector3.multiplyScalar`). -/
def Vec3.smul (c : ℚ) (a : Vec3) : Vec3 := ⟨c * a.x, c * a.y, c * a.z⟩

/-- Dot product (`THREE.Vector3.dot`). -/
def Vec3.dot (a b : Vec3) : ℚ := a.x * b.x + a.y * b.y + a.z * b.z

/-- A plane in Hessian normal form, modelling `THREE.Plane`
(`normal`, `constant`). -/
structure PlaneT where
  normal : Vec3
  constant : ℚ
deriving DecidableEq, Repr

/-- A ray (origin and direction), modelling `THREE.Ray`. -/
structure RayT where
  origin : Vec3
  dir : Vec3
deriving DecidableEq, Repr

/-- Model of `THREE.Plane.setFromNormalAndCoplanarPoint`:
`constant = -point.dot(normal)`. -/
def setFromNormalAndCoplanarPoint (normal point : Vec3) : PlaneT :=
  ⟨normal, -(Vec3.dot point normal)⟩

/-- Model of `THREE.Plane.distanceToPoint`:
`normal.dot(point) + constant`. -/
def distanceToPoint (pl : PlaneT) (point : Vec3) : ℚ :=
  Vec3.dot pl.normal point + pl.constant

/-- Model of `THREE.Ray.distanceToPlane`: if the denominator
`normal.dot(direction)` is zero the ray is parallel to the plane and the
result is `none` unless the origin lies on the plane; a negative
parameter (plane behind the ray) also yields `none`. -/
def distanceToPlane (r : RayT) (pl : PlaneT) : Option ℚ :=
  let denom := Vec3.dot pl.normal r.dir
  if denom = 0 then
    if distanceToPoint pl r.origin = 0 then some 0 else none
  else
    let t := -(Vec3.dot r.origin pl.normal + pl.constant) / denom
    if 0 ≤ t then some t else none

/-- The point at parameter `t` along a ray (`THREE.Ray.at`). -/
def rayAt (r : RayT) (t : ℚ) : Vec3 := Vec3.add r.origin (Vec3.smul t r.dir)

/-- Model of `THREE.Ray.intersectPlane`: `none` when
`distanceToPlane` is `null`. -/
def intersectPlane (r : RayT) (pl : PlaneT) : Option Vec3 :=
  (distanceToPlane r pl).map (rayAt r)

/-- Constant `FLOOR_LEVEL` (StickyNote.tsx line 376). -/
def FLOOR_LEVEL : ℚ := -2

/-- Constant `HALF_HEIGHT` (line 378). -/
def HALF_HEIGHT : ℚ := 1/100

/-- Constant `FLOOR_OFFSET` (line 380). -/
def FLOOR_OFFSET : ℚ := 1/100

/-- Constant `FLOOR_BOUNCE_IMPULSE` (line 382). -/
def FLOOR_BOUNCE_IMPULSE : ℚ := 1/5

/-- Constant `STACK_SEPARATION` (line 390). -/
def STACK_SEPARATION : ℚ := 3/100

/-- Constant `INITIAL_HEIGHT_BOOST` (line 392). -/
def INITIAL_HEIGHT_BOOST : ℚ := 1/5

/-- Constant `MAX_STACK_DETECTION_DISTANCE` (line 394). -/
def MAX_STACK_DETECTION_DISTANCE : ℚ := 1/10

/-- The floor bound `floorY = FLOOR_LEVEL + HALF_HEIGHT + FLOOR_OFFSET`
computed identically at lines 525 and 607. -/
def floorY : ℚ := FLOOR_LEVEL + HALF_HEIGHT + FLOOR_OFFSET

/-- The per-object settlement depth offset of line 566:
`creationTime.current % 1000 / 1000 * 0.001`. -/
def settleOffset (t : ℕ) : ℚ := ((t % 1000 : ℕ) : ℚ) / 1000 * (1/1000)

/-- The stillness test of lines 549-552: every velocity component has
absolute value below `0.01`. -/
def isNearlyStationary (v : Vec3) : Prop :=
  |v.x| < 1/100 ∧ |v.y| < 1/100 ∧ |v.z| < 1/100

instance (v : Vec3) : Decidable (isNearlyStationary v) := by
  unfold isNearlyStationary; infer_instance

/-- The full per-note state of one `StickyNote` component plus its solver
body.  `pos`, `vel`, `angVel`, `rot`, `mass` mirror the cannon body;
the remaining fields mirror the component's refs and `useState` values. -/
structure NoteState where
  pos : Vec3
  vel : Vec3
  angVel : Vec3
  rot : Vec3
  mass : ℚ
  isDroppedNote : Bool
  isDragging : Bool
  rHov : Bool
  lHov : Bool
  hasSettled : Bool
  settleTime : ℚ
  highestY : ℚ
  creationTime : ℕ
  dragOffset : Vec3
  dragPlane : PlaneT
  lastValidPos : Vec3
  lastValidRot : Vec3
  currentPosition : Vec3
  noteId : ℕ
deriving DecidableEq, Repr

/-- Initial component/body state (lines 385-475 and the `useBox`
construction at 421-454): a dropped note is boosted above
`floorY + INITIAL_HEIGHT_BOOST`, starts with mass `0.1` (pad notes have
mass `1`), rotation `[π/2, 0, 0]`; `dragOffset` is a fresh
`THREE.Vector3()` (zero), `dragPlane` a fresh `THREE.Plane()`
(normal `(1,0,0)`, constant `0`), `lastValidRotation` starts `[0,0,0]`,
and `highestYPosition` starts at the position prop's y. -/
def initNoteState (hp : ℚ) (p : Vec3) (dropped : Bool) (t idn : ℕ) : NoteState :=
  let initialPos : Vec3 :=
    if dropped then
      ⟨p.x, max p.y (FLOOR_LEVEL + HALF_HEIGHT + FLOOR_OFFSET + INITIAL_HEIGHT_BOOST), p.z⟩
    else p
  { pos := initialPos
    vel := ⟨0, 0, 0⟩
    angVel := ⟨0, 0, 0⟩
    rot := ⟨hp, 0, 0⟩
    mass := if dropped then 1/10 else 1
    isDroppedNote := dropped
    isDragging := false
    rHov := false
    lHov := false
    hasSettled := false
    settleTime := 0
    highestY := p.y
    creationTime := t
    dragOffset := ⟨0, 0, 0⟩
    dragPlane := ⟨⟨1, 0, 0⟩, 0⟩
    lastValidPos := p
    lastValidRot := ⟨0, 0, 0⟩
    currentPosition := p
    noteId := idn }

/-- One invocation of the floor-check interval callback
(lines 528-596), which fires every `FLOOR_CHECK_INTERVAL = 16` ms for
dropped notes only (the effect returns immediately when
`!isDroppedNote`, line 523).  `now` is `performance.now()`.

Control flow, matching the source exactly:
1. read `worldPos` once;
2. update the running maximum height (lines 536-538);
3. if not dragging and the note is low, has fallen more than `0.1`
   below its peak and is nearly stationary, and `hasSettled` is still
   false, mark it settled and hard-freeze it at
   `floorY + STACK_SEPARATION + settleOffset` with mass `0.5`
   (lines 541-584; the deferred mass reduction of lines 579-583 is
   `settleMassTimeout` below);
4. finally, the regular floor correction (lines 588-594) tests the
   closure value of `hasSettled` — which is still the pre-call value
   even if step 3 just called `setHasSettled(true)` — and the
   `worldPos` read in step 1, so a note that settles from below the
   floor bound is immediately re-positioned to
   `floorY + STACK_SEPARATION` without the settlement offset. -/
def floorCheckTick (hp now : ℚ) (s : NoteState) : NoteState :=
  if s.isDroppedNote = false then s else
  let worldPos := s.pos
  let highest := if worldPos.y > s.highestY then worldPos.y else s.highestY
  let s1 : NoteState := { s with highestY := highest }
  let s2 : NoteState :=
    if s1.isDragging = false then
      if worldPos.y < floorY + MAX_STACK_DETECTION_DISTANCE ∧
         |highest - worldPos.y| > 1/10 ∧
         isNearlyStationary s1.vel then
        if s1.hasSettled = false then
          { s1 with
            hasSettled := true
            settleTime := now
            pos := ⟨worldPos.x, floorY + STACK_SEPARATION + settleOffset s1.creationTime, worldPos.z⟩
            vel := ⟨0, 0, 0⟩
            angVel := ⟨0, 0, 0⟩
            rot := ⟨hp, 0, 0⟩
            mass := 1/2 }
        else s1
      else s1
    else s1
  if worldPos.y < floorY ∧ s.hasSettled = false then
    { s2 with pos := ⟨worldPos.x, floorY + STACK_SEPARATION, worldPos.z⟩, vel := ⟨0, 0, 0⟩ }
  else s2

/-- The deferred mass reduction scheduled 500 ms after settlement
(lines 579-583): lower the mass to `0.2` unless the note is being
dragged by then. -/
def settleMassTimeout (s : NoteState) : NoteState :=
  if s.isDragging = false then { s with mass := 1/5 } else s

/-- A position or rotation sample delivered by a solver subscription;
`none` in a component models a non-finite (`NaN`/`±Infinity`) value. -/
structure PosSample where
  x : Option ℚ
  y : Option ℚ
  z : Option ℚ
deriving DecidableEq, Repr

/-- Test that `Number.isFinite` holds of all three components. -/
def finiteAll (p : PosSample) : Bool :=
  p.x.isSome && p.y.isSome && p.z.isSome

/-- The closure-local variables of the position subscription effect
(lines 603-606): `lastY`, `velocityY`, `consecutiveFloorHits`,
`lastFloorHitTime`. -/
structure PosCbLocals where
  lastY : ℚ
  velocityY : ℚ
  consecutiveFloorHits : ℕ
  lastFloorHitTime : ℚ
deriving DecidableEq, Repr

/-- One invocation of the position subscription callback
(`unsubscribePos`, lines 622-708).  Returns the updated note/body
state, the updated closure locals, and the list of
`api.applyImpulse(vector, point)` requests issued to the solver.

Branches, matching the source:
* lines 625-629: once settled for more than 1000 ms and not dragging,
  return without touching anything;
* lines 632-640: if any sample component is non-finite, write the
  last-known-valid position back to the body and return;
* lines 643-645: update the running maximum height;
* lines 650-698: strict floor correction when below `floorY` and not
  settled, with approximate-velocity bookkeeping, bounce impulse and
  consecutive-hit stabilization for non-dragging dropped notes (the
  200 ms deferred block of lines 684-694 is `stabilizeTimeout` below);
* lines 700-704: otherwise update `lastY` and, when the sample is at or
  above the floor and within `2` of the last snapshot, record it as the
  last-known-valid position;
* line 707: mirror the sample into `currentPosition`. -/
def posCallback (hp now : ℚ) (s : NoteState) (loc : PosCbLocals) (p : PosSample) :
    NoteState × PosCbLocals × List (Vec3 × Vec3) :=
  if s.hasSettled = true ∧ now - s.settleTime > 1000 ∧ s.isDragging = false then
    (s, loc, [])
  else
    match p.x, p.y, p.z with
    | some px, some py, some pz =>
      let s1 : NoteState := { s with highestY := if py > s.highestY then py else s.highestY }
      if py < floorY ∧ s1.hasSettled = false then
        let s2 : NoteState := { s1 with pos := ⟨px, floorY + STACK_SEPARATION, pz⟩ }
        if s2.isDroppedNote = true ∧ s2.isDragging = false then
          let vY := (py - loc.lastY) / max 1 (now - loc.lastFloorHitTime)
          let hits :=
            if now - loc.lastFloorHitTime < 100 then loc.consecutiveFloorHits + 1
            else max 1 (loc.consecutiveFloorHits - 1)
          let s3 : NoteState := { s2 with vel := ⟨0, 0, 0⟩, angVel := ⟨0, 0, 0⟩ }
          let imps : List (Vec3 × Vec3) :=
            if |vY| > 1/10 then
              [(⟨0, min (|vY| * FLOOR_BOUNCE_IMPULSE) (1/20), 0⟩, ⟨0, 0, 0⟩)]
            else []
          if hits > 2 then
            ({ s3 with
                 mass := 4/5
                 pos := ⟨px, floorY + STACK_SEPARATION, pz⟩
                 rot := ⟨hp, 0, 0⟩
                 currentPosition := ⟨px, py, pz⟩ },
             { loc with velocityY := vY, lastFloorHitTime := now, consecutiveFloorHits := 0 },
             imps)
          else
            ({ s3 with currentPosition := ⟨px, py, pz⟩ },
             { loc with velocityY := vY, lastFloorHitTime := now, consecutiveFloorHits := hits },
             imps)
        else
          ({ s2 with currentPosition := ⟨px, py, pz⟩ }, loc, [])
      else
        let s2 : NoteState :=
          if py ≥ floorY ∧ |py - s1.lastValidPos.y| < 2 then
            { s1 with lastValidPos := ⟨px, py, pz⟩ }
          else s1
        ({ s2 with currentPosition := ⟨px, py, pz⟩ },
         { loc with lastY := py },
         [])
    | _, _, _ =>
      ({ s with pos := s.lastValidPos }, loc, [])

/-- The 200 ms deferred stabilization block of lines 684-694: lower the
mass back to `0.2` and, if the note still looks stable, mark it
settled. -/
def stabilizeTimeout (now : ℚ) (s : NoteState) : NoteState :=
  if s.isDragging = false then
    let s1 : NoteState := { s with mass := 1/5 }
    if s1.hasSettled = false then
      { s1 with hasSettled := true, settleTime := now }
    else s1
  else s

/-- One invocation of the rotation subscription callback
(`unsubscribeRot`, lines 710-721).  When every component is finite the
sample is recorded as the last-known-valid rotation and, if the tilt
from `π/2` exceeds `0.15`, the rotation is hard-reset to
`[π/2, r1, r2]` with the angular velocity zeroed.  A sample with any
non-finite component is ignored: the callback performs no write at
all. -/
def rotCallback (hp : ℚ) (s : NoteState) (r : PosSample) : NoteState :=
  match r.x, r.y, r.z with
  | some rx, some ry, some rz =>
    let s1 : NoteState := { s with lastValidRot := ⟨rx, ry, rz⟩ }
    if |rx - hp| > 15/100 then
      { s1 with rot := ⟨hp, ry, rz⟩, angVel := ⟨0, 0, 0⟩ }
    else s1
  | _, _, _ => s

/-- Model of `getNormalizedPointerPosition` (lines 766-772).  The source divides
by `rect.width` and `rect.height` with no guard; in JavaScript a zero
denominator produces a non-finite result (`±Infinity` or `NaN`), which
the embedded function models as `none` in that component. -/
def getNormalizedPointerPosition (offsetX offsetY : ℚ)
    (rectLeft rectTop rectWidth rectHeight : ℚ) : Option ℚ × Option ℚ :=
  (if rectWidth = 0 then none
   else some (((offsetX - rectLeft) / rectWidth) * 2 - 1),
   if rectHeight = 0 then none
   else some ((-((offsetY - rectTop) / rectHeight)) * 2 + 1))

/-- Model of `resetPhysicsState` (lines 913-932): clear the settled flag, zero
mass and velocities, snap the rotation, and lift the body `0.2` above
the recorded `currentPosition` (the wake-up impulse of line 929 is a
request to the solver aimed at neighbouring bodies and does not change
this body's modelled state; `setIsVisible(true)` is visual only). -/
def resetPhysicsState (hp : ℚ) (s : NoteState) : NoteState :=
  let s1 : NoteState :=
    { s with
        hasSettled := false
        settleTime := 0
        mass := 0
        vel := ⟨0, 0, 0⟩
        angVel := ⟨0, 0, 0⟩
        rot := ⟨hp, 0, 0⟩ }
  let p := s1.currentPosition
  { s1 with pos := ⟨p.x, p.y + 1/5, p.z⟩ }

/-- Model of `setupDragPlane` (lines 935-940): the plane through the grab-time
world position whose normal is the camera's forward-facing normal
(`(0,0,1)` rotated by the camera quaternion, supplied here as
`camNormal`). -/
def setupDragPlane (camNormal worldPosition : Vec3) : PlaneT :=
  setFromNormalAndCoplanarPoint camNormal worldPosition

/-- Model of `handlePointerDown` (lines 774-803), the grab handler for pad
notes.  `g` is the `isGlobalDragging` prop.  The guard of line 776
rejects the grab, with no state change, when this note is already
dragging, any global drag is active, or a corner is hovered.  On
acceptance: record the world position, start dragging, reset the
physics state, store the drag plane, and — only if the initial ray
intersects that plane — store the grab offset
`worldPosition - intersection` (line 797-799; on a miss the previous
contents of the `dragOffset` ref are left in place). -/
def handlePointerDown (hp : ℚ) (g : Bool) (camNormal : Vec3) (ray : RayT)
    (s : NoteState) : NoteState :=
  if s.isDragging = true ∨ g = true ∨ s.rHov = true ∨ s.lHov = true then s else
  let worldPosition := s.pos
  let s1 : NoteState := { s with currentPosition := worldPosition, isDragging := true }
  let s2 := resetPhysicsState hp s1
  let s3 : NoteState := { s2 with dragPlane := setupDragPlane camNormal worldPosition }
  match intersectPlane ray s3.dragPlane with
  | some ip => { s3 with dragOffset := Vec3.sub worldPosition ip }
  | none => s3

/-- The inline grab path of the dropped-note mesh `onPointerDown`
handler (lines 989-1011): guard `!isDragging && !isGlobalDragging`,
then the same sequence as `handlePointerDown` except that the world
position is additionally recorded as the last-known-valid position
(line 996). -/
def onPointerDownDropped (hp : ℚ) (g : Bool) (camNormal : Vec3) (ray : RayT)
    (s : NoteState) : NoteState :=
  if s.isDragging = false ∧ g = false then
    let worldPosition := s.pos
    let s1 : NoteState :=
      { s with
          currentPosition := worldPosition
          lastValidPos := worldPosition
          isDragging := true }
    let s2 := resetPhysicsState hp s1
    let s3 : NoteState := { s2 with dragPlane := setupDragPlane camNormal worldPosition }
    match intersectPlane ray s3.dragPlane with
    | some ip => { s3 with dragOffset := Vec3.sub worldPosition ip }
    | none => s3
  else s

/-- Model of `handlePointerMove` (lines 805-827), the window-level pointer-move
handler active during a drag: intersect the current pointer ray with
the stored drag plane; on a miss do nothing; on a hit add the stored
grab offset and clamp the vertical component to
`FLOOR_LEVEL + HALF_HEIGHT + FLOOR_OFFSET` before writing the body
position (line 818). -/
def handlePointerMove (s : NoteState) (ray : RayT) : NoteState :=
  if s.isDragging = false then s else
  match intersectPlane ray s.dragPlane with
  | some ip =>
    let newPosition := Vec3.add ip s.dragOffset
    let clampedY := max (FLOOR_LEVEL + HALF_HEIGHT + FLOOR_OFFSET) newPosition.y
    { s with
        pos := ⟨newPosition.x, clampedY, newPosition.z⟩
        currentPosition := ⟨newPosition.x, clampedY, newPosition.z⟩ }
  | none => s

/-- The inline mesh `onPointerMove` drag path (lines 1057-1076): the
same intersect-and-offset computation as `handlePointerMove`, but the
resulting position is written without any floor clamp. -/
def meshPointerMove (s : NoteState) (ray : RayT) : NoteState :=
  if s.isDragging = false then s else
  match intersectPlane ray s.dragPlane with
  | some ip =>
    let newPosition := Vec3.add ip s.dragOffset
    { s with pos := newPosition, currentPosition := newPosition }
  | none => s

/-- Model of `handlePointerUp` (lines 829-839), the release handler for pad
notes: a release with no active drag is a no-op; otherwise stop
dragging and restore mass `1`. -/
def handlePointerUp (s : NoteState) : NoteState :=
  if s.isDragging = false then s else
  { s with isDragging := false, mass := 1 }

/-- Model of `handleDrop` (lines 943-973), the release handler for dropped
notes.  `rx` and `rz` are the two draws of
`(Math.random() - 0.5) * 0.005`, each in `[-1/400, 1/400]`.  The body
is re-positioned at the current world position plus the random offset,
with `finalY = max(currentPos.y, floorY + STACK_SEPARATION)`, given a
small randomized falling velocity, canonical rotation, and mass
`0.1`. -/
def handleDrop (hp rx rz : ℚ) (s : NoteState) : NoteState :=
  if s.isDragging = false then s else
  let s1 : NoteState := { s with isDragging := false, hasSettled := false, settleTime := 0 }
  let currentPos := s1.pos
  let s2 : NoteState := { s1 with lastValidPos := currentPos }
  let finalY := max currentPos.y
    (FLOOR_LEVEL + HALF_HEIGHT + FLOOR_OFFSET + STACK_SEPARATION)
  { s2 with
      pos := ⟨currentPos.x + rx, finalY, currentPos.z + rz⟩
      vel := ⟨rx * 2, 3/10, rz * 2⟩
      angVel := ⟨0, 0, 0⟩
      rot := ⟨hp, 0, 0⟩
      mass := 1/10 }

/-- The interaction-relevant state of one note for the grab/release
protocol: the `isDropped` prop, the component's `isDragging` state and
the two corner-hover flags. -/
structure NoteUI where
  isDropped : Bool
  isDragging : Bool
  rHov : Bool
  lHov : Bool
deriving DecidableEq, Repr

/-- The scene-level state: the notes rendered by `Scene.tsx` plus
Scene's `isDragging` state, which every note receives as its
`isGlobalDragging` prop (Scene.tsx lines 112 and 266). -/
structure SysState where
  notes : List NoteUI
  globalDragging : Bool
deriving DecidableEq, Repr

/-- Pointer gestures routed to the notes: grab (pointer-down on note
`i`), release (pointer-up), corner hover enter/leave on note `i`
(`b = true` for enter), and committing a pending cursor note, which
appends a new dropped note (Scene.tsx `handleCanvasClick`,
lines 161-188). -/
inductive GEvent where
  | grab : ℕ → GEvent
  | release : ℕ → GEvent
  | hoverR : ℕ → Bool → GEvent
  | hoverL : ℕ → Bool → GEvent
  | addDropped : GEvent
deriving DecidableEq, Repr

/-- Effect of a pointer-down on one note, given the current
`isGlobalDragging` prop `g`; returns the updated note and whether the
grab was accepted.

The mesh `onPointerDown` wrapper (lines 984-987) first resets both
corner-hover flags.  For a dropped note the inline guard
`!isDragging && !isGlobalDragging` (line 990) decides acceptance; for a
pad note `handlePointerDown`'s guard (line 776) additionally rejects
when a corner-hover flag is set — and, `setState` being asynchronous,
it reads the hover values from before the wrapper's reset. -/
def grabNoteUpd (g : Bool) (n : NoteUI) : NoteUI × Bool :=
  if n.isDropped then
    if n.isDragging = false ∧ g = false then
      ({ n with isDragging := true, rHov := false, lHov := false }, true)
    else ({ n with rHov := false, lHov := false }, false)
  else
    if n.isDragging = false ∧ g = false ∧ n.rHov = false ∧ n.lHov = false then
      ({ n with isDragging := true, rHov := false, lHov := false }, true)
    else ({ n with rHov := false, lHov := false }, false)

/-- Reset both corner-hover flags, as the effects of lines 897-902 and
905-910 do on every note once a global drag becomes active. -/
def clearHovs (n : NoteUI) : NoteUI := { n with rHov := false, lHov := false }

/-- One gesture step of the scene.

* `grab i`: run `grabNoteUpd` on note `i`.  On acceptance the note's
  `onDragStart` callback sets Scene's `isDragging` (line 261), and the
  hover-reset effects of lines 897-910 then clear every note's corner
  flags.  On rejection only note `i`'s wrapper hover-reset applies.
* `release i`: `handlePointerUp`/`handleDrop` return unless the note is
  dragging (lines 830, 944); otherwise `onDragEnd` clears Scene's
  `isDragging` (line 262).
* `hoverR`/`hoverL`: the corner handlers (lines 853-887) force the flag
  to `false` whenever the note is dragging or a global drag is active.
* `addDropped`: Scene appends a freshly committed dropped note
  (lines 176-183). -/
def stepEvent (s : SysState) (e : GEvent) : SysState :=
  match e with
  | .grab i =>
    match s.notes[i]? with
    | none => s
    | some n =>
      let r := grabNoteUpd s.globalDragging n
      if r.2 then
        { notes := (s.notes.set i r.1).map clearHovs, globalDragging := true }
      else
        { s with notes := s.notes.set i r.1 }
  | .release i =>
    match s.notes[i]? with
    | none => s
    | some n =>
      if n.isDragging then
        { notes := s.notes.set i { n with isDragging := false }, globalDragging := false }
      else s
  | .hoverR i b =>
    match s.notes[i]? with
    | none => s
    | some n =>
      let b2 := if n.isDragging = true ∨ s.globalDragging = true then false else b
      { s with notes := s.notes.set i { n with rHov := b2 } }
  | .hoverL i b =>
    match s.notes[i]? with
    | none => s
    | some n =>
      let b2 := if n.isDragging = true ∨ s.globalDragging = true then false else b
      { s with notes := s.notes.set i { n with lHov := b2 } }
  | .addDropped =>
    { s with
        notes := s.notes ++ [{ isDropped := true, isDragging := false, rHov := false, lHov := false }] }

/-- A pad note as initially rendered: not dropped, not dragging, no
corner hovered. -/
def padNote : NoteUI :=
  { isDropped := false, isDragging := false, rHov := false, lHov := false }

/-- The initial scene: five pad notes (Scene.tsx lines 114-123), no
global drag. -/
def initSys : SysState :=
  { notes := List.replicate 5 padNote, globalDragging := false }

/-- Run a sequence of gestures from the initial scene. -/
def runEvents (evs : List GEvent) : SysState :=
  evs.foldl stepEvent initSys

/-- Number of notes currently in Dragging state. -/
def dragCount (s : SysState) : ℕ :=
  s.notes.countP (fun n => n.isDragging)

/-- The protocol invariant: at most one note drags at a time, Scene's
`isDragging` flag tracks whether a drag session exists, and while a
session is active every corner-hover flag is clear. -/
def InvSys (s : SysState) : Prop :=
  dragCount s ≤ 1 ∧
  (s.globalDragging = true ↔ dragCount s = 1) ∧
  (s.globalDragging = true → ∀ n ∈ s.notes, n.rHov = false ∧ n.lHov = false)

/-- A reference dropped-note state used to build concrete test states:
resting at the origin with zero velocities, canonical rotation
(`hp = 157/100` standing for `π/2`), mass `0.1`, not dragging, not
settled, created at timestamp `500`. -/
def baseNote : NoteState :=
  { pos := ⟨0, 0, 0⟩
    vel := ⟨0, 0, 0⟩
    angVel := ⟨0, 0, 0⟩
    rot := ⟨157/100, 0, 0⟩
    mass := 1/10
    isDroppedNote := true
    isDragging := false
    rHov := false
    lHov := false
    hasSettled := false
    settleTime := 0
    highestY := 0
    creationTime := 500
    dragOffset := ⟨0, 0, 0⟩
    dragPlane := ⟨⟨1, 0, 0⟩, 0⟩
    lastValidPos := ⟨0, 0, 0⟩
    lastValidRot := ⟨0, 0, 0⟩
    currentPosition := ⟨0, 0, 0⟩
    noteId := 0 }

/-- A dropped note that is already Settled but sits below the floor
bound (as after a solver perturbation). -/
def settledBelowFloor : NoteState :=
  { baseNote with pos := ⟨0, -3, 0⟩, hasSettled := true, mass := 1/5 }

/-- A Settled dropped note resting where the stabilizer put it. -/
def settledAtRest : NoteState :=
  { baseNote with pos := ⟨0, -39/20, 0⟩, hasSettled := true, mass := 1/5 }

/-- An unsettled, stationary dropped note just above the floor bound
(inside the settlement band), having fallen from height `0`. -/
def fallenNote : NoteState :=
  { baseNote with pos := ⟨0, -19/10, 0⟩ }

/-- An unsettled, stationary dropped note strictly below the floor
bound. -/
def belowFloorNote : NoteState :=
  { baseNote with pos := ⟨0, -3, 0⟩ }

/-- A pad (non-dropped) note strictly below the floor bound. -/
def padBelowFloor : NoteState :=
  { baseNote with isDroppedNote := false, mass := 1, pos := ⟨0, -3, 0⟩ }

/-- A pad note below the floor bound that still carries horizontal
velocity. -/
def padBelowFloorMoving : NoteState :=
  { baseNote with isDroppedNote := false, mass := 1, pos := ⟨0, -3, 0⟩, vel := ⟨1, 0, 0⟩ }

/-- A dragged dropped note below the floor bound. -/
def draggedBelowFloor : NoteState :=
  { baseNote with pos := ⟨1, -5, 2⟩, isDragging := true, mass := 0 }

/-- Two unsettled stationary notes at the same spot inside the
settlement band, created in the same millisecond. -/
def twinNoteA : NoteState :=
  { baseNote with pos := ⟨2, -19/10, 3⟩, noteId := 10 }

/-- Second of the two timestamp-colliding notes; only the identity
differs from `twinNoteA`. -/
def twinNoteB : NoteState :=
  { baseNote with pos := ⟨2, -19/10, 3⟩, noteId := 11 }

/-- Like `twinNoteA` but with creation timestamp `100`. -/
def stampedNoteA : NoteState :=
  { baseNote with pos := ⟨2, -19/10, 3⟩, creationTime := 100, noteId := 20 }

/-- Like `twinNoteA` but with creation timestamp `600`. -/
def stampedNoteB : NoteState :=
  { baseNote with pos := ⟨2, -19/10, 3⟩, creationTime := 600, noteId := 21 }

/-- A settled dropped note about to be grabbed and released in place
(mass `0.2`, the post-settlement value). -/
def restingGrabTarget : NoteState :=
  { baseNote with mass := 1/5, hasSettled := true }

/-- A mid-drag state whose drag plane is the `z = 0` plane with zero
grab offset. -/
def dragStateZPlane : NoteState :=
  { baseNote with isDragging := true, mass := 0, dragPlane := ⟨⟨0, 0, 1⟩, 0⟩ }

/-- A ray aimed at the `z = 0` plane from `z = 5`, hitting it at
`(0, -5, 0)`, i.e. far below the floor bound. -/
def rayBelowFloor : RayT := ⟨⟨0, -5, 5⟩, ⟨0, 0, -1⟩⟩

/-- A ray aimed at the `z = 0` plane from `z = 5`, hitting it at
`(2, 0, 0)`. -/
def rayHit : RayT := ⟨⟨2, 0, 5⟩, ⟨0, 0, -1⟩⟩

/-- A ray parallel to the `z = 0` plane and off it, so that
`intersectPlane` returns `none`. -/
def rayMiss : RayT := ⟨⟨0, 0, 5⟩, ⟨1, 0, 0⟩⟩

/-- The camera forward normal pointing along `+z`. -/
def camZ : Vec3 := ⟨0, 0, 1⟩

/-- A pad note at the origin (mass `1`). -/
def padAtOrigin : NoteState :=
  { baseNote with isDroppedNote := false, mass := 1 }

/-- A note whose solver rotation has diverged from the last-known-valid
rotation snapshot. -/
def skewedRotNote : NoteState :=
  { baseNote with rot := ⟨9, 9, 9⟩, lastValidRot := ⟨157/100, 0, 0⟩ }

/-- A rotation/position sample whose first component is non-finite. -/
def nanSample : PosSample := ⟨none, some 0, some 0⟩

/-- The settlement offset is never negative. -/
theorem settleOffset_nonneg (t : ℕ) : 0 ≤ settleOffset t := by
  unfold settleOffset
  positivity

/-- A floor-check tick never touches the position (nor the settled
flag) of a note that is already Settled: both the settlement branch
(line 560) and the floor correction (line 589) are gated on
`!hasSettled`. -/
theorem tick_settled_frozen (hp now : ℚ) (s : NoteState) (h : s.hasSettled = true) :
    (floorCheckTick hp now s).pos = s.pos ∧ (floorCheckTick hp now s).hasSettled = true := by
  simp only [floorCheckTick, h]
  split_ifs <;> simp_all

/-- When a floor-check tick takes a note from unsettled to Settled, the
resulting height is at least `floorY + STACK_SEPARATION`: either
`floorY + STACK_SEPARATION + settleOffset` (line 569) or, if the note
was below the floor at the start of the tick, the floor correction's
`floorY + STACK_SEPARATION` (line 591). -/
theorem tick_newly_settled_above (hp now : ℚ) (s : NoteState)
    (h : s.hasSettled = false) (h2 : (floorCheckTick hp now s).hasSettled = true) :
    floorY + STACK_SEPARATION ≤ (floorCheckTick hp now s).pos.y := by
  have hoff := settleOffset_nonneg s.creationTime
  simp only [floorCheckTick, h] at h2 ⊢
  split_ifs at h2 ⊢ <;> simp_all

/-- Full characterization of a settling tick when the note starts at or
above the floor bound: the note is frozen at
`floorY + STACK_SEPARATION + settleOffset creationTime` with zeroed
velocities, canonical rotation and mass `0.5`. -/
theorem tick_settles_above_floor (hp now : ℚ) (s : NoteState)
    (hdrop : s.isDroppedNote = true) (hdrag : s.isDragging = false)
    (hset : s.hasSettled = false)
    (hband : s.pos.y < floorY + MAX_STACK_DETECTION_DISTANCE)
    (hfall : |(if s.pos.y > s.highestY then s.pos.y else s.highestY) - s.pos.y| > 1/10)
    (hstill : isNearlyStationary s.vel)
    (hfloor : floorY ≤ s.pos.y) :
    floorCheckTick hp now s =
      { s with
          highestY := if s.pos.y > s.highestY then s.pos.y else s.highestY
          hasSettled := true
          settleTime := now
          pos := ⟨s.pos.x, floorY + STACK_SEPARATION + settleOffset s.creationTime, s.pos.z⟩
          vel := ⟨0, 0, 0⟩
          angVel := ⟨0, 0, 0⟩
          rot := ⟨hp, 0, 0⟩
          mass := 1/2 } := by
  have hnl : ¬ s.pos.y < floorY := not_lt.mpr hfloor
  simp only [floorCheckTick]
  split_ifs <;> simp_all

/-- On a tick of an unsettled, non-dragging dropped note, the settled
flag is raised exactly when the stillness, closeness-to-floor and
has-fallen conditions of lines 549-557 hold. -/
theorem tick_settle_trigger_iff (hp now : ℚ) (s : NoteState)
    (hdrop : s.isDroppedNote = true) (hdrag : s.isDragging = false)
    (hset : s.hasSettled = false) :
    (floorCheckTick hp now s).hasSettled = true ↔
      (s.pos.y < floorY + MAX_STACK_DETECTION_DISTANCE ∧
       |(if s.pos.y > s.highestY then s.pos.y else s.highestY) - s.pos.y| > 1/10 ∧
       isNearlyStationary s.vel) := by
  simp only [floorCheckTick]
  split_ifs <;> simp_all

/-- C1 (amended): at the tick on which a note becomes Settled its
height is set to at least `floorY + STACK_SEPARATION`, above the floor
bound; afterwards the Settlement Stabilizer never moves a Settled
object at all — in particular it does not re-establish
`position.y ≥ floor + margin` if the solver moves a Settled object
below the bound, because the below-floor correction is disabled while
`hasSettled` is set. -/
theorem c1_settled_floor_invariant (hp now : ℚ) (s : NoteState) :
    (s.hasSettled = true →
       (floorCheckTick hp now s).pos = s.pos ∧
       (floorCheckTick hp now s).hasSettled = true) ∧
    (s.hasSettled = false → (floorCheckTick hp now s).hasSettled = true →
       floorY + STACK_SEPARATION ≤ (floorCheckTick hp now s).pos.y) :=
  ⟨fun h => tick_settled_frozen hp now s h,
   fun h h2 => tick_newly_settled_above hp now s h h2⟩

/-- C1 witness: a Settled resting note is untouched by a tick long
after its grace period, and a note that settles on a tick ends at or
above `floorY + STACK_SEPARATION`. -/
theorem c1_witness :
    (floorCheckTick (157/100) 5000 settledAtRest).pos = settledAtRest.pos ∧
    floorY + STACK_SEPARATION ≤ (floorCheckTick (157/100) 0 fallenNote).pos.y :=
  ⟨((c1_settled_floor_invariant (157/100) 5000 settledAtRest).1 rfl).1,
   (c1_settled_floor_invariant (157/100) 0 fallenNote).2 rfl
     (by norm_num [floorCheckTick, fallenNote, baseNote, floorY, FLOOR_LEVEL,
        HALF_HEIGHT, FLOOR_OFFSET, STACK_SEPARATION, MAX_STACK_DETECTION_DISTANCE,
        isNearlyStationary, abs_of_nonneg])⟩

/-- C1 counterexample: a Settled note sitting below the floor bound is
left exactly where it is by the next stabilizer tick (even one far past
the grace period), so `position.y ≥ floor + margin` does not hold at
every subsequent tick once anything pushes a Settled object below the
bound. -/
theorem c1_counterexample :
    settledBelowFloor.hasSettled = true ∧
    settledBelowFloor.pos.y < floorY ∧
    floorCheckTick (157/100) 5000 settledBelowFloor = settledBelowFloor ∧
    (floorCheckTick (157/100) 5000 settledBelowFloor).pos.y < floorY := by
  norm_num [floorCheckTick, settledBelowFloor, baseNote, floorY, FLOOR_LEVEL,
    HALF_HEIGHT, FLOOR_OFFSET, STACK_SEPARATION, MAX_STACK_DETECTION_DISTANCE,
    isNearlyStationary]

/-- C5 (amended): on a stabilizer tick, a non-dragging unsettled
dropped note transitions to Settled exactly when its per-axis speed is
below `0.01`, its height is below `floorY + MAX_STACK_DETECTION_DISTANCE`
(the code imposes no lower bound, so a note below the floor bound also
qualifies), and its running peak height exceeds its current height by
strictly more than `0.1`.  When the note additionally starts at or
above the floor bound, the transition hard-sets the position to
`floorY + STACK_SEPARATION + settleOffset creationTime`, zeroes both
velocities, snaps the rotation to canonical, raises the mass to `0.5`
and later lowers it to `0.2`.  (When the note settles from below the
floor bound, the same-tick floor correction overwrites the position
with plain `floorY + STACK_SEPARATION`; see the C5 counterexample.) -/
theorem c5_settlement_transition (hp now : ℚ) (s : NoteState)
    (hdrop : s.isDroppedNote = true) (hdrag : s.isDragging = false)
    (hset : s.hasSettled = false) :
    ((floorCheckTick hp now s).hasSettled = true ↔
      (s.pos.y < floorY + MAX_STACK_DETECTION_DISTANCE ∧
       |(if s.pos.y > s.highestY then s.pos.y else s.highestY) - s.pos.y| > 1/10 ∧
       isNearlyStationary s.vel)) ∧
    (s.pos.y < floorY + MAX_STACK_DETECTION_DISTANCE →
     |(if s.pos.y > s.highestY then s.pos.y else s.highestY) - s.pos.y| > 1/10 →
     isNearlyStationary s.vel → floorY ≤ s.pos.y →
       (floorCheckTick hp now s).pos =
         ⟨s.pos.x, floorY + STACK_SEPARATION + settleOffset s.creationTime, s.pos.z⟩ ∧
       (floorCheckTick hp now s).vel = ⟨0, 0, 0⟩ ∧
       (floorCheckTick hp now s).angVel = ⟨0, 0, 0⟩ ∧
       (floorCheckTick hp now s).rot = ⟨hp, 0, 0⟩ ∧
       (floorCheckTick hp now s).mass = 1/2 ∧
       (floorCheckTick hp now s).settleTime = now ∧
       (settleMassTimeout (floorCheckTick hp now s)).mass = 1/5) := by
  refine ⟨tick_settle_trigger_iff hp now s hdrop hdrag hset, ?_⟩
  intro h1 h2 h3 h4
  rw [tick_settles_above_floor hp now s hdrop hdrag hset h1 h2 h3 h4]
  refine ⟨rfl, rfl, rfl, rfl, rfl, rfl, ?_⟩
  simp [settleMassTimeout, hdrag]

/-- C5 witness: a stationary dropped note that fell to just above the
floor bound settles on the next tick with all the advertised side
effects. -/
theorem c5_witness :
    (floorCheckTick (157/100) 42 fallenNote).hasSettled = true ∧
    (floorCheckTick (157/100) 42 fallenNote).pos =
      ⟨0, floorY + STACK_SEPARATION + settleOffset 500, 0⟩ ∧
    (floorCheckTick (157/100) 42 fallenNote).mass = 1/2 ∧
    (settleMassTimeout (floorCheckTick (157/100) 42 fallenNote)).mass = 1/5 := by
  have h := c5_settlement_transition (157/100) 42 fallenNote rfl rfl rfl
  have hb : fallenNote.pos.y < floorY + MAX_STACK_DETECTION_DISTANCE := by
    norm_num [fallenNote, baseNote, floorY, FLOOR_LEVEL, HALF_HEIGHT, FLOOR_OFFSET,
      MAX_STACK_DETECTION_DISTANCE]
  have hf : |(if fallenNote.pos.y > fallenNote.highestY then fallenNote.pos.y
              else fallenNote.highestY) - fallenNote.pos.y| > 1/10 := by
    norm_num [fallenNote, baseNote, abs_of_nonneg]
  have hs : isNearlyStationary fallenNote.vel := by
    norm_num [fallenNote, baseNote, isNearlyStationary]
  have hfl : floorY ≤ fallenNote.pos.y := by
    norm_num [fallenNote, baseNote, floorY, FLOOR_LEVEL, HALF_HEIGHT, FLOOR_OFFSET]
  obtain ⟨hp1, hp2, hp3, hp4, hp5, hp6, hp7⟩ := h.2 hb hf hs hfl
  exact ⟨h.1.mpr ⟨hb, hf, hs⟩, hp1, hp5, hp7⟩

/-- C5 counterexample: a stationary dropped note sitting below the
floor bound — whose height is not "within a small band above the floor
bound" — still transitions to Settled on the tick, and the same-tick
floor correction overwrites the settlement position with plain
`floorY + STACK_SEPARATION`, dropping the per-object offset even though
that offset is nonzero. -/
theorem c5_counterexample :
    belowFloorNote.pos.y < floorY ∧
    (floorCheckTick (157/100) 0 belowFloorNote).hasSettled = true ∧
    settleOffset belowFloorNote.creationTime = 1/2000 ∧
    (floorCheckTick (157/100) 0 belowFloorNote).pos.y = floorY + STACK_SEPARATION := by
  norm_num [floorCheckTick, belowFloorNote, baseNote, floorY, FLOOR_LEVEL, HALF_HEIGHT,
    FLOOR_OFFSET, STACK_SEPARATION, MAX_STACK_DETECTION_DISTANCE, isNearlyStationary,
    settleOffset, abs_of_nonneg]

/-- C6 (amended): two notes settling on a tick at the same spot at or
above the floor bound receive distinct settlement offsets — and hence
distinct Settled positions — provided their creation timestamps are
distinct and less than 1000 ms apart.  (Notes whose timestamps collide
at millisecond resolution, or that settle from below the floor bound,
can end at identical positions; see the C6 counterexample.) -/
theorem c6_distinct_settle_offsets (hp now : ℚ) (s1 s2 : NoteState)
    (hdrop1 : s1.isDroppedNote = true) (hdrag1 : s1.isDragging = false)
    (hset1 : s1.hasSettled = false)
    (hband1 : s1.pos.y < floorY + MAX_STACK_DETECTION_DISTANCE)
    (hfall1 : |(if s1.pos.y > s1.highestY then s1.pos.y else s1.highestY) - s1.pos.y| > 1/10)
    (hstill1 : isNearlyStationary s1.vel)
    (hfloor1 : floorY ≤ s1.pos.y)
    (hdrop2 : s2.isDroppedNote = true) (hdrag2 : s2.isDragging = false)
    (hset2 : s2.hasSettled = false)
    (hband2 : s2.pos.y < floorY + MAX_STACK_DETECTION_DISTANCE)
    (hfall2 : |(if s2.pos.y > s2.highestY then s2.pos.y else s2.highestY) - s2.pos.y| > 1/10)
    (hstill2 : isNearlyStationary s2.vel)
    (hfloor2 : floorY ≤ s2.pos.y)
    (ht : s1.creationTime < s2.creationTime)
    (hw : s2.creationTime - s1.creationTime < 1000) :
    settleOffset s1.creationTime ≠ settleOffset s2.creationTime ∧
    (floorCheckTick hp now s1).pos ≠ (floorCheckTick hp now s2).pos := by
  have hmod : s1.creationTime % 1000 ≠ s2.creationTime % 1000 := by
    intro hEq
    have hdvd : (1000 : ℕ) ∣ s2.creationTime - s1.creationTime :=
      (Nat.modEq_iff_dvd' (le_of_lt ht)).mp hEq
    have hle := Nat.le_of_dvd (by omega) hdvd
    omega
  have hoff : settleOffset s1.creationTime ≠ settleOffset s2.creationTime := by
    unfold settleOffset
    intro h
    apply hmod
    field_simp at h
    exact_mod_cast h
  refine ⟨hoff, ?_⟩
  rw [tick_settles_above_floor hp now s1 hdrop1 hdrag1 hset1 hband1 hfall1 hstill1 hfloor1,
      tick_settles_above_floor hp now s2 hdrop2 hdrag2 hset2 hband2 hfall2 hstill2 hfloor2]
  intro hEq
  have hy := congrArg Vec3.y hEq
  simp only [] at hy
  exact hoff (by linarith)

/-- C6 witness: two coincident notes with creation timestamps 100 and
600 settle at distinct positions. -/
theorem c6_witness :
    (floorCheckTick (157/100) 0 stampedNoteA).pos ≠
      (floorCheckTick (157/100) 0 stampedNoteB).pos := by
  refine (c6_distinct_settle_offsets (157/100) 0 stampedNoteA stampedNoteB
    rfl rfl rfl ?_ ?_ ?_ ?_ rfl rfl rfl ?_ ?_ ?_ ?_ ?_ ?_).2
  all_goals
    norm_num [stampedNoteA, stampedNoteB, baseNote, floorY, FLOOR_LEVEL, HALF_HEIGHT,
      FLOOR_OFFSET, MAX_STACK_DETECTION_DISTANCE, isNearlyStationary, abs_of_nonneg]

/-- C6 counterexample: two distinct notes created in the same
millisecond (`Date.now()` collision, possible for two objects spawned
within the same tick) carry equal settlement offsets, and settling both
at the same spot on the same tick leaves them at the identical Settled
position. -/
theorem c6_counterexample :
    twinNoteA.noteId ≠ twinNoteB.noteId ∧
    settleOffset twinNoteA.creationTime = settleOffset twinNoteB.creationTime ∧
    (floorCheckTick (157/100) 0 twinNoteA).hasSettled = true ∧
    (floorCheckTick (157/100) 0 twinNoteB).hasSettled = true ∧
    (floorCheckTick (157/100) 0 twinNoteA).pos = (floorCheckTick (157/100) 0 twinNoteB).pos := by
  norm_num [floorCheckTick, twinNoteA, twinNoteB, baseNote, floorY, FLOOR_LEVEL,
    HALF_HEIGHT, FLOOR_OFFSET, STACK_SEPARATION, MAX_STACK_DETECTION_DISTANCE,
    isNearlyStationary, settleOffset, abs_of_nonneg]

/-- C7 (amended): the floor-check interval fires every
`FLOOR_CHECK_INTERVAL = 16` ms (≈60 Hz) but only for dropped notes
(`isDroppedNote`); within it, any not-yet-settled dropped note found
below the floor bound — whether or not it is being dragged — is
hard-corrected to `floorY + STACK_SEPARATION` with its velocity zeroed
in that same tick.  Pad notes are not covered by the interval; a
not-yet-settled pad note below the floor bound is instead
hard-corrected to `floorY + STACK_SEPARATION` by the
position-subscription callback on the next solver sample, but that
path leaves the velocity untouched and issues no impulse. -/
theorem c7_floor_correction (hp now : ℚ) (s : NoteState) (loc : PosCbLocals)
    (px py pz : ℚ) :
    (s.isDroppedNote = true → s.hasSettled = false → s.pos.y < floorY →
      (floorCheckTick hp now s).pos = ⟨s.pos.x, floorY + STACK_SEPARATION, s.pos.z⟩ ∧
      (floorCheckTick hp now s).vel = ⟨0, 0, 0⟩) ∧
    (s.isDroppedNote = false → s.hasSettled = false → py < floorY →
      (posCallback hp now s loc ⟨some px, some py, some pz⟩).1.pos =
        ⟨px, floorY + STACK_SEPARATION, pz⟩ ∧
      (posCallback hp now s loc ⟨some px, some py, some pz⟩).1.vel = s.vel ∧
      (posCallback hp now s loc ⟨some px, some py, some pz⟩).2.2 = []) := by
  constructor
  · intro hd hs hy
    constructor
    · simp only [floorCheckTick]
      split_ifs <;> simp_all
    · simp only [floorCheckTick]
      split_ifs <;> simp_all
  · intro hd hs hy
    simp only [posCallback]
    split_ifs <;> simp_all

/-- C7 witness: a dropped note at height `-5` — even one currently
being dragged — is corrected to the floor bound plus separation with
zero velocity in one interval tick, and a below-floor pad note is
corrected by the subscription callback with its velocity left as it
was. -/
theorem c7_witness :
    (floorCheckTick (157/100) 0 draggedBelowFloor).pos =
      ⟨1, floorY + STACK_SEPARATION, 2⟩ ∧
    (floorCheckTick (157/100) 0 draggedBelowFloor).vel = ⟨0, 0, 0⟩ ∧
    (posCallback (157/100) 0 padBelowFloor ⟨0, 0, 0, 0⟩
        ⟨some 0, some (-3), some 0⟩).1.pos = ⟨0, floorY + STACK_SEPARATION, 0⟩ ∧
    (posCallback (157/100) 0 padBelowFloor ⟨0, 0, 0, 0⟩
        ⟨some 0, some (-3), some 0⟩).1.vel = padBelowFloor.vel := by
  have h1 := (c7_floor_correction (157/100) 0 draggedBelowFloor ⟨0, 0, 0, 0⟩ 0 (-3) 0).1
    rfl rfl
    (by norm_num [draggedBelowFloor, baseNote, floorY, FLOOR_LEVEL, HALF_HEIGHT,
      FLOOR_OFFSET])
  have h2 := (c7_floor_correction (157/100) 0 padBelowFloor ⟨0, 0, 0, 0⟩ 0 (-3) 0).2
    rfl rfl
    (by norm_num [floorY, FLOOR_LEVEL, HALF_HEIGHT, FLOOR_OFFSET])
  exact ⟨h1.1, h1.2, h2.1, h2.2.1⟩

/-- C7 counterexample: for a pad (non-dropped) note the ≈60 Hz
floor-check interval body never runs — the tick is the identity even on
a non-dragging pad note below the floor bound, refuting "runs … for
every object that is not currently being dragged" — and the
subscription path that does correct such a note leaves its velocity
nonzero, refuting "hard-corrected … with its velocity zeroed within one
enforcement tick". -/
theorem c7_counterexample :
    padBelowFloorMoving.isDroppedNote = false ∧
    padBelowFloorMoving.isDragging = false ∧
    padBelowFloorMoving.pos.y < floorY ∧
    floorCheckTick (157/100) 0 padBelowFloorMoving = padBelowFloorMoving ∧
    (posCallback (157/100) 0 padBelowFloorMoving ⟨0, 0, 0, 0⟩
        ⟨some 0, some (-3), some 0⟩).1.vel ≠ ⟨0, 0, 0⟩ := by
  norm_num [floorCheckTick, posCallback, padBelowFloorMoving, baseNote, floorY,
    FLOOR_LEVEL, HALF_HEIGHT, FLOOR_OFFSET, STACK_SEPARATION]

/-- Effect of an accepted dropped-note grab on body position, drag
flag, mass and settled flag, independent of whether the initial ray
hits the drag plane: the body is lifted `0.2` above its world
position, made kinematic (mass `0`) and unsettled. -/
theorem grab_dropped_core (hp : ℚ) (camNormal : Vec3) (ray : RayT) (s : NoteState)
    (hdrag : s.isDragging = false) :
    (onPointerDownDropped hp false camNormal ray s).pos = ⟨s.pos.x, s.pos.y + 1/5, s.pos.z⟩ ∧
    (onPointerDownDropped hp false camNormal ray s).isDragging = true ∧
    (onPointerDownDropped hp false camNormal ray s).mass = 0 ∧
    (onPointerDownDropped hp false camNormal ray s).hasSettled = false := by
  simp only [onPointerDownDropped, resetPhysicsState, setupDragPlane, hdrag]
  cases intersectPlane ray (setFromNormalAndCoplanarPoint camNormal s.pos) <;> simp

/-- C3 (amended): grabbing a dropped note and releasing it with no
intervening pointer movement leaves `x` and `z` within the `±0.0025`
drop randomization of their pre-grab values, but raises the vertical
position to `max (y + 0.2) (floorY + STACK_SEPARATION)` — the grab-time
lift of `resetPhysicsState` is never undone — and sets the mass to the
fixed drop value `0.1`, which equals the pre-grab value only when the
note already had mass `0.1`. -/
theorem c3_grab_release_roundtrip (hp rx rz : ℚ) (camNormal : Vec3) (ray : RayT)
    (s : NoteState) (hdrag : s.isDragging = false) :
    (handleDrop hp rx rz (onPointerDownDropped hp false camNormal ray s)).pos =
      ⟨s.pos.x + rx, max (s.pos.y + 1/5) (floorY + STACK_SEPARATION), s.pos.z + rz⟩ ∧
    (handleDrop hp rx rz (onPointerDownDropped hp false camNormal ray s)).mass = 1/10 := by
  obtain ⟨h1, h2, h3, h4⟩ := grab_dropped_core hp camNormal ray s hdrag
  simp only [handleDrop, h2, floorY]
  norm_num [h1]

/-- C3 witness: a grab-release round trip on a resting dropped note at
the origin with extreme randomization draws `(1/400, -1/400)` ends at
`(1/400, 1/5, -1/400)` with mass `0.1`. -/
theorem c3_witness :
    (handleDrop (157/100) (1/400) (-1/400)
        (onPointerDownDropped (157/100) false camZ rayHit baseNote)).pos =
      ⟨1/400, 1/5, -1/400⟩ ∧
    (handleDrop (157/100) (1/400) (-1/400)
        (onPointerDownDropped (157/100) false camZ rayHit baseNote)).mass = 1/10 := by
  have h := c3_grab_release_roundtrip (157/100) (1/400) (-1/400) camZ rayHit baseNote rfl
  refine ⟨?_, h.2⟩
  rw [h.1]
  norm_num [baseNote, floorY, FLOOR_LEVEL, HALF_HEIGHT, FLOOR_OFFSET, STACK_SEPARATION]

/-- C3 counterexample: grabbing a settled note of mass `0.2` at the
origin and releasing it without moving the pointer (randomization draws
zero) moves its vertical position up by exactly `0.2` — far outside any
sub-millimetre epsilon — and leaves its mass at `0.1`, not the pre-grab
`0.2`. -/
theorem c3_counterexample :
    (handleDrop (157/100) 0 0
        (onPointerDownDropped (157/100) false camZ rayHit restingGrabTarget)).pos.y -
      restingGrabTarget.pos.y = 1/5 ∧
    (handleDrop (157/100) 0 0
        (onPointerDownDropped (157/100) false camZ rayHit restingGrabTarget)).mass ≠
      restingGrabTarget.mass := by
  norm_num [handleDrop, onPointerDownDropped, resetPhysicsState, setupDragPlane,
    restingGrabTarget, baseNote, floorY, FLOOR_LEVEL, HALF_HEIGHT, FLOOR_OFFSET,
    STACK_SEPARATION, intersectPlane, distanceToPlane, distanceToPoint, rayAt,
    setFromNormalAndCoplanarPoint, Vec3.dot, Vec3.add, Vec3.sub, Vec3.smul, camZ, rayHit]

/-- C4 (amended): on a pointer-move frame of an active drag whose ray
intersects the drag plane, the window-level handler
(`handlePointerMove`) clamps the written vertical component to
`FLOOR_LEVEL + HALF_HEIGHT + FLOOR_OFFSET`, but the inline mesh
`onPointerMove` path writes `intersection + offset` with no clamp, so a
below-floor position is written on that path when the pointer maps
below the bound. -/
theorem c4_drag_floor_clamp (s : NoteState) (ray : RayT) (ip : Vec3)
    (hdrag : s.isDragging = true)
    (hint : intersectPlane ray s.dragPlane = some ip) :
    (handlePointerMove s ray).pos =
      ⟨(Vec3.add ip s.dragOffset).x,
       max (FLOOR_LEVEL + HALF_HEIGHT + FLOOR_OFFSET) (Vec3.add ip s.dragOffset).y,
       (Vec3.add ip s.dragOffset).z⟩ ∧
    floorY ≤ (handlePointerMove s ray).pos.y ∧
    (meshPointerMove s ray).pos = Vec3.add ip s.dragOffset := by
  simp only [handlePointerMove, meshPointerMove, hdrag, hint]
  refine ⟨by simp, ?_, by simp⟩
  simp only [Bool.true_eq_false, if_false]
  exact le_max_left _ _

/-- C4 witness: dragging against the `z = 0` plane with a pointer ray
mapping to height `-5`, the window-level handler writes the clamped
floor-bound height. -/
theorem c4_witness :
    (handlePointerMove dragStateZPlane rayBelowFloor).pos =
      ⟨0, FLOOR_LEVEL + HALF_HEIGHT + FLOOR_OFFSET, 0⟩ ∧
    floorY ≤ (handlePointerMove dragStateZPlane rayBelowFloor).pos.y := by
  have hint : intersectPlane rayBelowFloor dragStateZPlane.dragPlane = some ⟨0, -5, 0⟩ := by
    norm_num [intersectPlane, distanceToPlane, distanceToPoint, rayAt, Vec3.dot,
      Vec3.add, Vec3.smul, dragStateZPlane, baseNote, rayBelowFloor]
  have h := c4_drag_floor_clamp dragStateZPlane rayBelowFloor ⟨0, -5, 0⟩ rfl hint
  refine ⟨?_, h.2.1⟩
  rw [h.1]
  norm_num [dragStateZPlane, baseNote, Vec3.add, FLOOR_LEVEL, HALF_HEIGHT, FLOOR_OFFSET]

/-- C4 counterexample: on the inline mesh pointer-move path the
position written during an active drag is `(0, -5, 0)`, strictly below
the floor bound, refuting "the position written to the dragged object's
body has its vertical component clamped so it never goes below the
floor bound". -/
theorem c4_counterexample :
    dragStateZPlane.isDragging = true ∧
    (meshPointerMove dragStateZPlane rayBelowFloor).pos.y < floorY := by
  norm_num [meshPointerMove, dragStateZPlane, baseNote, rayBelowFloor, intersectPlane,
    distanceToPlane, distanceToPoint, rayAt, Vec3.dot, Vec3.add, Vec3.smul, floorY,
    FLOOR_LEVEL, HALF_HEIGHT, FLOOR_OFFSET]

/-- C8 (amended): when a position sample has a non-finite component and
the note is not in the settled-grace-expired skip state, the position
callback writes the last-known-valid position back to the body and does
nothing else (no local-state change, no impulse); a rotation sample
with a non-finite component, however, is simply ignored — the rotation
callback performs no write-back of the last-known-valid rotation. -/
theorem c8_validity_guard (hp now : ℚ) (s : NoteState) (loc : PosCbLocals) (p : PosSample)
    (hnf : finiteAll p = false)
    (hns : ¬ (s.hasSettled = true ∧ now - s.settleTime > 1000 ∧ s.isDragging = false)) :
    posCallback hp now s loc p = ({ s with pos := s.lastValidPos }, loc, []) ∧
    rotCallback hp s p = s := by
  obtain ⟨px, py, pz⟩ := p
  simp only [finiteAll] at hnf
  constructor
  · simp only [posCallback, if_neg hns]
    cases px <;> cases py <;> cases pz <;> simp_all
  · simp only [rotCallback]
    cases px <;> cases py <;> cases pz <;> simp_all

/-- C8 witness: a sample with a `NaN` first component triggers the
position write-back and leaves the rotation untouched on an unsettled
note. -/
theorem c8_witness :
    posCallback (157/100) 0 skewedRotNote ⟨0, 0, 0, 0⟩ nanSample =
      ({ skewedRotNote with pos := skewedRotNote.lastValidPos }, ⟨0, 0, 0, 0⟩, []) ∧
    rotCallback (157/100) skewedRotNote nanSample = skewedRotNote :=
  c8_validity_guard (157/100) 0 skewedRotNote ⟨0, 0, 0, 0⟩ nanSample rfl
    (by norm_num [skewedRotNote, baseNote])

/-- C8 counterexample: a non-finite rotation sample arriving while the
body's rotation differs from the last-known-valid snapshot produces no
write at all — the snapshot is not written back to the solver body,
refuting the claim for rotation samples. -/
theorem c8_counterexample :
    rotCallback (157/100) skewedRotNote nanSample = skewedRotNote ∧
    skewedRotNote.rot ≠ skewedRotNote.lastValidRot := by
  constructor
  · simp [rotCallback, nanSample]
  · norm_num [skewedRotNote, baseNote]

/-- C9 (amended): when the initial grab ray does not intersect the
newly constructed drag plane, the `dragOffset` ref is simply left with
its previous contents — which is the zero vector only for a note that
has never had a successful grab intersection since mount (the ref is
initialized to `new THREE.Vector3()`), not for every drag session. -/
theorem c9_grab_offset_default (hp : ℚ) (g : Bool) (camNormal : Vec3) (ray : RayT)
    (s : NoteState)
    (hmiss : intersectPlane ray (setupDragPlane camNormal s.pos) = none) :
    (handlePointerDown hp g camNormal ray s).dragOffset = s.dragOffset ∧
    ∀ (p : Vec3) (dropped : Bool) (t idn : ℕ),
      (initNoteState hp p dropped t idn).dragOffset = ⟨0, 0, 0⟩ := by
  constructor
  · by_cases hg : s.isDragging = true ∨ g = true ∨ s.rHov = true ∨ s.lHov = true
    · simp [handlePointerDown, hg]
    · simp only [handlePointerDown, if_neg hg, resetPhysicsState, setupDragPlane] at *
      simp [hmiss]
  · intro p dropped t idn
    simp [initNoteState]

/-- C9 witness: a first grab of a freshly mounted pad note whose
initial ray is parallel to the drag plane keeps the zero offset. -/
theorem c9_witness :
    (handlePointerDown (157/100) false camZ rayMiss padAtOrigin).dragOffset = ⟨0, 0, 0⟩ ∧
    (initNoteState (157/100) ⟨1, 2, 3⟩ true 5 7).dragOffset = ⟨0, 0, 0⟩ := by
  have hmiss : intersectPlane rayMiss (setupDragPlane camZ padAtOrigin.pos) = none := by
    norm_num [intersectPlane, distanceToPlane, distanceToPoint, setupDragPlane,
      setFromNormalAndCoplanarPoint, Vec3.dot, padAtOrigin, baseNote, camZ, rayMiss]
  have h := c9_grab_offset_default (157/100) false camZ rayMiss padAtOrigin hmiss
  refine ⟨?_, h.2 ⟨1, 2, 3⟩ true 5 7⟩
  rw [h.1]
  norm_num [padAtOrigin, baseNote]

/-- C9 counterexample: grab with a ray hitting the plane off-center
(storing offset `(-2,0,0)`), release, then grab again with a ray that
misses the new drag plane: the second drag session starts with the
stale offset `(-2,0,0)`, not zero, so the object's origin will not snap
to the first valid intersection. -/
theorem c9_counterexample :
    (handlePointerDown (157/100) false camZ rayMiss
        (handlePointerUp (handlePointerDown (157/100) false camZ rayHit padAtOrigin))).dragOffset =
      ⟨-2, 0, 0⟩ ∧
    (handlePointerDown (157/100) false camZ rayMiss
        (handlePointerUp (handlePointerDown (157/100) false camZ rayHit padAtOrigin))).isDragging =
      true := by
  norm_num [handlePointerDown, handlePointerUp, resetPhysicsState, setupDragPlane,
    setFromNormalAndCoplanarPoint, intersectPlane, distanceToPlane, distanceToPoint,
    rayAt, Vec3.dot, Vec3.add, Vec3.sub, Vec3.smul, padAtOrigin, baseNote, camZ,
    rayHit, rayMiss]

/-- C10 (amended): for a zero-width (resp. zero-height) viewport
rectangle the corresponding normalized-device-coordinate component is
the non-finite result of a JavaScript division by zero (modelled as
`none`), so a zero-area viewport never yields the pair `(0, 0)`. -/
theorem c10_zero_area_ndc (offsetX offsetY rectLeft rectTop rectW rectH : ℚ)
    (h : rectW * rectH = 0) :
    (rectW = 0 →
      (getNormalizedPointerPosition offsetX offsetY rectLeft rectTop rectW rectH).1 = none) ∧
    (rectH = 0 →
      (getNormalizedPointerPosition offsetX offsetY rectLeft rectTop rectW rectH).2 = none) ∧
    getNormalizedPointerPosition offsetX offsetY rectLeft rectTop rectW rectH ≠
      (some 0, some 0) := by
  refine ⟨fun hw => by simp [getNormalizedPointerPosition, hw],
          fun hh => by simp [getNormalizedPointerPosition, hh], ?_⟩
  intro hEq
  rcases mul_eq_zero.mp h with h0 | h0
  · have hfst := congrArg Prod.fst hEq
    simp [getNormalizedPointerPosition, h0] at hfst
  · have hsnd := congrArg Prod.snd hEq
    simp [getNormalizedPointerPosition, h0] at hsnd

/-- C10 witness: a degenerate `0 × 0` viewport rectangle produces a
non-finite x component and not the pair `(0, 0)`. -/
theorem c10_witness :
    (getNormalizedPointerPosition 5 7 0 0 0 0).1 = none ∧
    getNormalizedPointerPosition 5 7 0 0 0 0 ≠ (some 0, some 0) := by
  have h := c10_zero_area_ndc 5 7 0 0 0 0 (by norm_num)
  exact ⟨h.1 rfl, h.2.2⟩

/-- C10 counterexample: with the viewport rectangle degenerate
(`width = height = 0`) the mapping does not return `(0, 0)`; both
components are non-finite. -/
theorem c10_counterexample :
    getNormalizedPointerPosition 5 7 0 0 0 0 = (none, none) ∧
    getNormalizedPointerPosition 5 7 0 0 0 0 ≠ (some 0, some 0) := by
  constructor
  · simp [getNormalizedPointerPosition]
  · simp [getNormalizedPointerPosition]

/-- Setting a list index to the element already there leaves the list
unchanged. -/
theorem set_self_of_getElem {α : Type} :
    ∀ (l : List α) (i : ℕ) (m : α), l[i]? = some m → l.set i m = l := by
  intro l
  induction l with
  | nil => intro i m h; simp at h
  | cons a tl ih =>
    intro i m h
    cases i with
    | zero => simp_all
    | succ j =>
      simp only [List.getElem?_cons_succ] at h
      simp [List.set, ih j m h]

/-- An accepted pointer-down requires no prior drag (local or global)
and produces a dragging note with cleared corner flags. -/
theorem grabNoteUpd_accept (g : Bool) (n : NoteUI)
    (h : (grabNoteUpd g n).2 = true) :
    g = false ∧ n.isDragging = false ∧
    (grabNoteUpd g n).1 = { n with isDragging := true, rHov := false, lHov := false } := by
  unfold grabNoteUpd at h ⊢
  split_ifs at h ⊢ <;> simp_all

/-- A rejected pointer-down only clears the corner-hover flags of the
target note (the wrapper of lines 984-987). -/
theorem grabNoteUpd_reject (g : Bool) (n : NoteUI)
    (h : (grabNoteUpd g n).2 = false) :
    (grabNoteUpd g n).1 = { n with rHov := false, lHov := false } := by
  unfold grabNoteUpd at h ⊢
  split_ifs at h ⊢ <;> simp_all

/-- The initial scene satisfies the protocol invariant. -/
theorem invSys_init : InvSys initSys := by
  unfold InvSys
  exact ⟨by decide, ⟨(fun h => nomatch h), fun h => absurd h (by decide)⟩,
    (fun h => nomatch h)⟩

/-- Replacing one note with a note of the same `isDragging` status —
with both corner flags clear whenever a global drag is active —
preserves the protocol invariant. -/
theorem invSys_set_preserve (s : SysState) (i : ℕ) (n m2 : NoteUI)
    (hg : s.notes[i]? = some n)
    (hd : m2.isDragging = n.isDragging)
    (hov : s.globalDragging = true → m2.rHov = false ∧ m2.lHov = false)
    (h : InvSys s) :
    InvSys { s with notes := s.notes.set i m2 } := by
  obtain ⟨h1, h2, h3⟩ := h
  obtain ⟨hlen, hget⟩ := List.getElem?_eq_some_iff.mp hg
  have hb := List.boole_getElem_le_countP (fun m : NoteUI => m.isDragging) s.notes i hlen
  have hcnt : (s.notes.set i m2).countP (fun m : NoteUI => m.isDragging) =
      s.notes.countP (fun m : NoteUI => m.isDragging) := by
    rw [List.countP_set _ _ _ _ hlen]
    simp only [hget] at hb ⊢
    simp only [hd]
    cases hni : n.isDragging
    · simp
    · rw [hni] at hb
      simp only [if_pos rfl] at hb ⊢
      omega
  have hdc : dragCount { s with notes := s.notes.set i m2 } =
      s.notes.countP (fun m : NoteUI => m.isDragging) := hcnt
  refine ⟨?_, ?_, ?_⟩
  · rw [hdc]; exact h1
  · rw [hdc]; exact h2
  · intro hglob x hx
    rcases List.mem_or_eq_of_mem_set hx with hmem | rfl
    · exact h3 hglob x hmem
    · exact hov hglob

/-- An accepted grab takes the scene from a session-free state to a
state with exactly one dragging note and every corner flag cleared, so
the protocol invariant is preserved. -/
theorem invSys_grab_accept (s : SysState) (i : ℕ) (n m2 : NoteUI)
    (hg : s.notes[i]? = some n)
    (hgf : s.globalDragging = false)
    (hnd : n.isDragging = false)
    (hd2 : m2.isDragging = true)
    (h : InvSys s) :
    InvSys { notes := (s.notes.set i m2).map clearHovs, globalDragging := true } := by
  obtain ⟨h1, h2, h3⟩ := h
  obtain ⟨hlen, hget⟩ := List.getElem?_eq_some_iff.mp hg
  have hc0 : s.notes.countP (fun m : NoteUI => m.isDragging) = 0 := by
    have hne : dragCount s ≠ 1 := fun hc => by rw [h2.mpr hc] at hgf; cases hgf
    unfold dragCount at h1 hne
    omega
  have hmapfun : ((fun m : NoteUI => m.isDragging) ∘ clearHovs) =
      (fun m : NoteUI => m.isDragging) := by
    funext x; simp [clearHovs]
  have hcnt : ((s.notes.set i m2).map clearHovs).countP (fun m : NoteUI => m.isDragging) = 1 := by
    rw [List.countP_map, hmapfun, List.countP_set _ _ _ _ hlen]
    simp only [hget]
    simp [hd2, hnd, hc0]
  have hdc : dragCount (SysState.mk ((s.notes.set i m2).map clearHovs) true) = 1 := hcnt
  refine ⟨le_of_eq hdc, ⟨fun _ => hdc, fun _ => rfl⟩, ?_⟩
  intro _ x hx
  obtain ⟨y, hy, rfl⟩ := List.mem_map.mp hx
  simp [clearHovs]

/-- Releasing the dragging note ends the session: no note drags
afterwards and the global flag is cleared, preserving the invariant. -/
theorem invSys_release (s : SysState) (i : ℕ) (n : NoteUI)
    (hg : s.notes[i]? = some n) (hnd : n.isDragging = true)
    (h : InvSys s) :
    InvSys { notes := s.notes.set i { n with isDragging := false },
             globalDragging := false } := by
  obtain ⟨h1, h2, h3⟩ := h
  obtain ⟨hlen, hget⟩ := List.getElem?_eq_some_iff.mp hg
  have hb := List.boole_getElem_le_countP (fun m : NoteUI => m.isDragging) s.notes i hlen
  have hcnt : (s.notes.set i { n with isDragging := false }).countP
      (fun m : NoteUI => m.isDragging) = 0 := by
    rw [List.countP_set _ _ _ _ hlen]
    simp only [hget] at hb ⊢
    unfold dragCount at h1
    rw [hnd] at hb ⊢
    simp at hb ⊢
    omega
  have hdc : dragCount (SysState.mk (s.notes.set i { n with isDragging := false }) false) = 0 :=
    hcnt
  refine ⟨by rw [hdc]; exact Nat.zero_le 1,
    ⟨(fun h => nomatch h), fun h => by rw [hdc] at h; cases h⟩,
    (fun h => nomatch h)⟩

/-- Every gesture step preserves the protocol invariant. -/
theorem invSys_step (s : SysState) (e : GEvent) (h : InvSys s) :
    InvSys (stepEvent s e) := by
  obtain ⟨h1, h2, h3⟩ := h
  cases e with
  | grab i =>
    cases hg : s.notes[i]? with
    | none => simpa [stepEvent, hg] using ⟨h1, h2, h3⟩
    | some n =>
      simp only [stepEvent, hg]
      by_cases hacc : (grabNoteUpd s.globalDragging n).2 = true
      · obtain ⟨hgf, hnd, hres⟩ := grabNoteUpd_accept _ _ hacc
        simp only [hacc, if_true]
        exact invSys_grab_accept s i n _ hg hgf hnd (by rw [hres]) ⟨h1, h2, h3⟩
      · rw [Bool.not_eq_true] at hacc
        have hres := grabNoteUpd_reject _ _ hacc
        simp only [hacc, Bool.false_eq_true, if_false]
        refine invSys_set_preserve s i n _ hg (by rw [hres]) ?_ ⟨h1, h2, h3⟩
        intro _
        rw [hres]
        exact ⟨rfl, rfl⟩
  | release i =>
    cases hg : s.notes[i]? with
    | none => simpa [stepEvent, hg] using ⟨h1, h2, h3⟩
    | some n =>
      simp only [stepEvent, hg]
      by_cases hd : n.isDragging = true
      · simp only [hd, if_true]
        exact invSys_release s i n hg hd ⟨h1, h2, h3⟩
      · rw [Bool.not_eq_true] at hd
        simp only [hd, Bool.false_eq_true, if_false]
        exact ⟨h1, h2, h3⟩
  | hoverR i b =>
    cases hg : s.notes[i]? with
    | none => simpa [stepEvent, hg] using ⟨h1, h2, h3⟩
    | some n =>
      simp only [stepEvent, hg]
      refine invSys_set_preserve s i n _ hg rfl ?_ ⟨h1, h2, h3⟩
      intro hglob
      obtain ⟨hr, hl⟩ := h3 hglob n (List.getElem?_mem hg)
      exact ⟨by simp [hglob], hl⟩
  | hoverL i b =>
    cases hg : s.notes[i]? with
    | none => simpa [stepEvent, hg] using ⟨h1, h2, h3⟩
    | some n =>
      simp only [stepEvent, hg]
      refine invSys_set_preserve s i n _ hg rfl ?_ ⟨h1, h2, h3⟩
      intro hglob
      obtain ⟨hr, hl⟩ := h3 hglob n (List.getElem?_mem hg)
      exact ⟨hr, by simp [hglob]⟩
  | addDropped =>
    simp only [stepEvent]
    refine ⟨?_, ?_, ?_⟩
    · simpa [dragCount] using h1
    · simpa [dragCount] using h2
    · intro hglob x hx
      rcases List.mem_append.mp hx with hmem | hmem
      · exact h3 hglob x hmem
      · simp at hmem
        subst hmem
        exact ⟨rfl, rfl⟩

/-- While a drag session is active, a pointer-down on any note is
rejected and changes nothing: the guards reject it, and the wrapper's
corner-flag resets are no-ops because the invariant already has every
corner flag clear. -/
theorem rejected_grab_identity (s : SysState) (hInv : InvSys s)
    (hglob : s.globalDragging = true) (i : ℕ) :
    stepEvent s (GEvent.grab i) = s := by
  obtain ⟨h1, h2, h3⟩ := hInv
  cases hg : s.notes[i]? with
  | none => simp [stepEvent, hg]
  | some n =>
    obtain ⟨hr, hl⟩ := h3 hglob n (List.getElem?_mem hg)
    have hacc : (grabNoteUpd s.globalDragging n).2 = false := by
      unfold grabNoteUpd
      split_ifs <;> simp_all
    have hres : (grabNoteUpd s.globalDragging n).1 = n := by
      rw [grabNoteUpd_reject _ _ hacc]
      cases n
      simp_all
    simp only [stepEvent, hg, hacc, Bool.false_eq_true, if_false, hres,
      set_self_of_getElem s.notes i n hg]

/-- The protocol invariant holds after any gesture sequence. -/
theorem invSys_run (evs : List GEvent) : InvSys (runEvents evs) := by
  suffices h : ∀ (l : List GEvent) (s : SysState), InvSys s → InvSys (l.foldl stepEvent s) from
    h evs initSys invSys_init
  intro l
  induction l with
  | nil => exact fun s hs => hs
  | cons e tl ih => exact fun s hs => ih _ (invSys_step s e hs)

/-- C2: for any sequence of grab/release/hover/commit gestures, at most
one note is in Dragging state at any instant, and a grab request
arriving while a drag session is active is rejected with no effect on
the scene state whatsoever. -/
theorem c2_single_drag_session (evs : List GEvent) (i : ℕ) :
    dragCount (runEvents evs) ≤ 1 ∧
    ((runEvents evs).globalDragging = true →
      stepEvent (runEvents evs) (GEvent.grab i) = runEvents evs) := by
  have h := invSys_run evs
  exact ⟨h.1, fun hg => rejected_grab_identity _ h hg i⟩

/-- C2 witness: after grabbing note 0, a session is active and a grab
of note 1 is rejected without changing the state. -/
theorem c2_witness :
    dragCount (runEvents [GEvent.grab 0]) ≤ 1 ∧
    (runEvents [GEvent.grab 0]).globalDragging = true ∧
    stepEvent (runEvents [GEvent.grab 0]) (GEvent.grab 1) = runEvents [GEvent.grab 0] := by
  have h := c2_single_drag_session [GEvent.grab 0] 1
  exact ⟨h.1, by decide, h.2 (by decide)⟩

end StickySim

